import Mathlib

/-!
Shallow embedding of `src/electron/win32-message-listener/listener.cpp`
(the PlynkIO win32 MAME-output listener).

The embedding models:
* the custom window-message registration (`RegisterWindowMessageA`) and the
  seven `WM_MAME_*` message codes resolved in `messagePump`;
* the mutable listener state (`g_mameHWND`, `g_idToName`, `g_currentRomName`)
  as an explicit state record;
* the window procedure `WndProc` as a step function from state and one
  inbound message to a new state, the list of events pushed to JS
  (`pushToJS` / `pushLabelToJS` / `pushStringToJS`), the list of outbound
  `PostMessage` calls, and an outcome (return value, fall-through to
  `DefWindowProc`, or an uncaught C++ exception escaping the procedure);
* the lifecycle `StopListener` as a function on a small lifecycle state.

Byte buffers are lists of naturals (byte values); strings are built from
bytes with `Char.ofNat`, mirroring the narrow-character win32 build.
-/

/-- Byte read as a character, as when a `char` buffer is turned into a
`std::string` member by member. -/
def byteChar (b : Nat) : Char := Char.ofNat b

/-- Build a `std::string` value from a byte buffer. -/
def bytesToString (bs : List Nat) : String := String.mk (bs.map byteChar)

/-- Byte encoding of a Lean string, used to build concrete packets. -/
def stringBytes (s : String) : List Nat := s.toList.map Char.toNat

/-- Value of `*reinterpret_cast<const UINT*>(buf)` on a little-endian
machine: the first four bytes of the buffer, least significant first. -/
def decodeUInt32LE (data : List Nat) : Nat :=
  data.getD 0 0 + 256 * data.getD 1 0 + 65536 * data.getD 2 0 +
    16777216 * data.getD 3 0

/-- Little-endian four-byte encoding of a 32-bit value, matching what the
source process writes into an id+label packet. -/
def uint32LEBytes (n : Nat) : List Nat :=
  [n % 256, n / 256 % 256, n / 65536 % 256, n / 16777216 % 256]

/-- Length returned by `strnlen(strBuf, maxLen)` when the buffer holds
exactly the listed bytes: index of the first NUL, or the full length. -/
def strnlenList : List Nat → Nat
  | [] => 0
  | b :: rest => if b = 0 then 0 else strnlenList rest + 1

/-- One entry of the C-locale `isspace` class, as skipped by `std::stoi`. -/
def isSpaceChar (c : Char) : Bool :=
  c = ' ' || c = '\t' || c = '\n' || c.toNat = 11 || c.toNat = 12 || c = '\r'

/-- Value of a block of decimal digit characters. -/
def digitsVal (ds : List Char) : Nat :=
  ds.foldl (fun a c => a * 10 + (c.toNat - 48)) 0

/-- Behaviour of `std::stoi` on the given characters: skip leading
whitespace, take an optional sign and a non-empty run of decimal digits,
ignore the rest.  `none` models a thrown `std::invalid_argument` (no
digits) or `std::out_of_range` (value outside `int`). -/
def stoiChars (cs : List Char) : Option Int :=
  let cs1 := cs.dropWhile isSpaceChar
  let signed : Bool × List Char :=
    match cs1 with
    | c :: rest => if c = '-' then (true, rest)
                   else if c = '+' then (false, rest)
                   else (false, cs1)
    | [] => (false, [])
  let ds := signed.2.takeWhile Char.isDigit
  if ds.isEmpty then none
  else
    let v : Int := (if signed.1 then -(digitsVal ds : Int) else (digitsVal ds : Int))
    if v < -2147483648 ∨ 2147483647 < v then none else some v

/-- Value of `static_cast<int>(lp)`: low 32 bits read as a signed int. -/
def toInt32 (n : Nat) : Int :=
  let m := n % 4294967296
  if m < 2147483648 then (m : Int) else (m : Int) - 4294967296

/-- Model of `RegisterWindowMessageA`: one atom per message name, so the
same string always resolves to the same code (the win32 guarantee the
source relies on). -/
def RegisterWindowMessageA (name : String) : Nat :=
  if name = "MAMEOutputStart" then 49153
  else if name = "MAMEOutputStop" then 49154
  else if name = "MAMEOutputRegister" then 49155
  else if name = "MAMEOutputUpdateState" then 49156
  else if name = "MAMEOutputGetIDString" then 49157
  else if name = "MAMEOutputUnregister" then 49158
  else 49152

/-- Message code resolved in `messagePump` line 170. -/
def WM_MAME_REG : Nat := RegisterWindowMessageA "MAMEOutputRegister"

/-- Message code resolved in `messagePump` line 171. -/
def WM_MAME_START : Nat := RegisterWindowMessageA "MAMEOutputStart"

/-- Message code resolved in `messagePump` line 172. -/
def WM_MAME_STOP : Nat := RegisterWindowMessageA "MAMEOutputStop"

/-- Message code resolved in `messagePump` line 173. -/
def WM_MAME_REGISTER : Nat := RegisterWindowMessageA "MAMEOutputRegister"

/-- Message code resolved in `messagePump` line 174. -/
def WM_MAME_UPDATE : Nat := RegisterWindowMessageA "MAMEOutputUpdateState"

/-- Message code resolved in `messagePump` line 175. -/
def WM_MAME_GET_ID : Nat := RegisterWindowMessageA "MAMEOutputGetIDString"

/-- Message code resolved in `messagePump` line 176. -/
def WM_MAME_UNREG : Nat := RegisterWindowMessageA "MAMEOutputUnregister"

/-- An event delivered to the JS callback: `pushToJS` sends a key and an
integer value, `pushLabelToJS` a key and a label string, `pushStringToJS`
a key and a text string. -/
inductive Event where
  | numericUpdate (key : String) (value : Int)
  | labelUpdate (key : String) (label : String)
  | textUpdate (key : String) (text : String)
  deriving DecidableEq, Repr

/-- The session-started event as the code emits it (`WndProc` line 116). -/
def sessionStartedEvent : Event := Event.numericUpdate "__MAME_START__" 1

/-- The session-stopped event as the code emits it (`WndProc` line 161). -/
def sessionStoppedEvent : Event := Event.numericUpdate "__MAME_STOP__" 0

/-- Destination window of a `PostMessage` call. -/
inductive Target where
  | broadcast
  | window (h : Nat)
  deriving DecidableEq, Repr

/-- One outbound `PostMessage(target, code, wp, lp)` call. -/
structure Outbound where
  target : Target
  code : Nat
  wp : Nat
  lp : Nat
  deriving DecidableEq, Repr

/-- One inbound window message: either `WM_COPYDATA` carrying a
`COPYDATASTRUCT` (discriminant `dwData` and `cbData` bytes of `lpData`),
or an ordinary message with code and two word parameters. -/
inductive Inbound where
  | copyData (dwData : Nat) (data : List Nat)
  | message (code : Nat) (wp : Nat) (lp : Nat)
  deriving DecidableEq, Repr

/-- How a `WndProc` invocation ends: a returned value, fall-through to
`DefWindowProc`, or an exception escaping the window procedure. -/
inductive Outcome where
  | handled (ret : Int)
  | defProc
  | thrown
  deriving DecidableEq, Repr

/-- Mutable listener state: `g_mameHWND` (0 for `nullptr`), `g_idToName`,
and `g_currentRomName`. -/
structure ListenerState where
  mameHWND : Nat
  idToName : List (Nat × String)
  currentRomName : String
  deriving DecidableEq, Repr

/-- The state at module load: null source window, empty map, empty name. -/
def initialState : ListenerState := ⟨0, [], ""⟩

/-- Lookup in `g_idToName` (`.count` / `operator[]` read side). -/
def cacheGet (id : Nat) : List (Nat × String) → Option String
  | [] => none
  | (k, v) :: rest => if k = id then some v else cacheGet id rest

/-- Removal from `g_idToName` (`.erase`). -/
def cacheErase (id : Nat) (m : List (Nat × String)) : List (Nat × String) :=
  m.filter (fun p => p.1 ≠ id)

/-- Insertion into `g_idToName` (`g_idToName[id] = label`). -/
def cachePut (id : Nat) (v : String) (m : List (Nat × String)) :
    List (Nat × String) :=
  (id, v) :: cacheErase id m

/-- Result of one `WndProc` invocation. -/
structure StepResult where
  state : ListenerState
  events : List Event
  outbound : List Outbound
  outcome : Outcome
  deriving DecidableEq, Repr

/-- The window procedure `WndProc` (listener.cpp lines 68-166), as a step
function.  `hwnd` is the procedure's own window handle argument.  On the
key=value path, `std::stoi` failing is modelled as outcome `thrown`: the
source wraps the call in no handler, so the exception escapes. -/
def WndProc (hwnd : Nat) (s : ListenerState) (i : Inbound) : StepResult :=
  match i with
  | .copyData dwData data =>
    if dwData = 1 ∧ 5 ≤ data.length then
      let id := decodeUInt32LE data
      let strBytes := data.drop 4
      let len := strnlenList strBytes
      let label := bytesToString (strBytes.take len)
      if id = 0 then
        { state := { s with currentRomName := label },
          events := [.textUpdate "__GAME_NAME__" label,
                     .numericUpdate "__GAME_NAME__" 0],
          outbound := [], outcome := .handled 1 }
      else
        { state := { s with idToName := cachePut id label s.idToName },
          events := [.labelUpdate ("id_" ++ toString id) label,
                     .numericUpdate ("id_" ++ toString id) 0],
          outbound := [], outcome := .handled 1 }
    else if 3 < data.length then
      let payload := data.map byteChar
      match payload.indexOf? '=' with
      | some eq =>
        match stoiChars (payload.drop (eq + 1)) with
        | some v =>
          { state := s,
            events := [.numericUpdate (String.mk (payload.take eq)) v],
            outbound := [], outcome := .handled 1 }
        | none => { state := s, events := [], outbound := [], outcome := .thrown }
      | none => { state := s, events := [], outbound := [], outcome := .handled 1 }
    else
      { state := s, events := [], outbound := [], outcome := .handled 1 }
  | .message code wp lp =>
    if code = WM_MAME_START then
      { state := { s with mameHWND := wp, idToName := [] },
        events := [sessionStartedEvent],
        outbound := [⟨.broadcast, WM_MAME_REG, hwnd, 0⟩,
                     ⟨.window wp, WM_MAME_REG, hwnd, 0⟩,
                     ⟨.broadcast, WM_MAME_GET_ID, hwnd, 0⟩,
                     ⟨.window wp, WM_MAME_GET_ID, hwnd, 0⟩],
        outcome := .handled 0 }
    else if code = WM_MAME_REGISTER then
      let id := lp % 4294967296
      { state := s, events := [],
        outbound := [⟨.broadcast, WM_MAME_GET_ID, hwnd, id⟩,
                     ⟨.window s.mameHWND, WM_MAME_GET_ID, hwnd, id⟩],
        outcome := .handled 0 }
    else if code = WM_MAME_UPDATE then
      let id := wp % 4294967296
      let val := toInt32 lp
      let req :=
        if id ≠ 0 ∧ cacheGet id s.idToName = none ∧ s.mameHWND ≠ 0 then
          [⟨Target.broadcast, WM_MAME_GET_ID, hwnd, id⟩,
           ⟨Target.window s.mameHWND, WM_MAME_GET_ID, hwnd, id⟩]
        else []
      let keyStr := if id = 0 then "__GAME_NAME__" else "id_" ++ toString id
      { state := s, events := [.numericUpdate keyStr val],
        outbound := req, outcome := .handled 0 }
    else if code = WM_MAME_UNREG then
      { state := { s with idToName := cacheErase (lp % 4294967296) s.idToName },
        events := [], outbound := [], outcome := .handled 0 }
    else if code = WM_MAME_STOP then
      { state := s, events := [sessionStoppedEvent],
        outbound := [], outcome := .handled 0 }
    else
      { state := s, events := [], outbound := [], outcome := .defProc }

/-- State after dispatching a list of inbound messages in order. -/
def runTrace (hwnd : Nat) (s : ListenerState) : List Inbound → ListenerState
  | [] => s
  | i :: rest => runTrace hwnd (WndProc hwnd s i).state rest

/-- Events emitted while dispatching a list of inbound messages in order. -/
def runEvents (hwnd : Nat) (s : ListenerState) : List Inbound → List Event
  | [] => []
  | i :: rest =>
    (WndProc hwnd s i).events ++ runEvents hwnd (WndProc hwnd s i).state rest

/-- The id+label packet the source process sends for `(id, label)`:
`dwData = 1`, four id bytes little-endian, then the label bytes. -/
def encodeLabelRecord (id : Nat) (label : String) : List Nat :=
  uint32LEBytes id ++ stringBytes label

/-- The `WM_COPYDATA` message carrying an id+label packet. -/
def labelPacket (id : Nat) (label : String) : Inbound :=
  Inbound.copyData 1 (encodeLabelRecord id label)

/-- Lifecycle state visible to `StopListener`: the run flag, whether the
pump thread is joinable, and the `Napi::ThreadSafeFunction` wrapper
`g_tsfn`: `tsfnHandle` is whether the wrapper holds a non-null
`napi_threadsafe_function` pointer — this is what `if (g_tsfn)` tests,
and it is set by `StartListener` and never nulled again, because
`ThreadSafeFunction::Release()` releases the underlying threadsafe
function without clearing the wrapper's stored pointer — and
`tsfnReleased` is whether that underlying threadsafe function has
already been released. -/
structure LifecycleState where
  running : Bool
  threadJoinable : Bool
  tsfnHandle : Bool
  tsfnReleased : Bool
  deriving DecidableEq, Repr

/-- Result of one `StopListener` call: the new lifecycle state, whether
the call performed a join, whether it called `Release()`, and whether
that `Release()` acted on an already-released threadsafe function (a
redundant release of a drained handle — N-API undefined behaviour). -/
structure StopResult where
  state : LifecycleState
  didJoin : Bool
  didRelease : Bool
  doubleRelease : Bool
  deriving DecidableEq, Repr

/-- The lifecycle stop path `StopListener` (listener.cpp lines 254-268):
clear the run flag, join the pump thread only if it is joinable (a join
makes it non-joinable), then `if (g_tsfn) g_tsfn.Release()`.  The guard
tests the wrapper's stored pointer, which `Release()` never nulls, so
once a start has bound a callback every subsequent stop calls
`Release()` again; `doubleRelease` records when that happens on an
already-released handle.  The `WM_QUIT` post only wakes the pump and is
not part of the state. -/
def StopListener (s : LifecycleState) : StopResult :=
  let s1 : LifecycleState := { s with running := false }
  let joinStep : LifecycleState × Bool :=
    if s1.threadJoinable then ({ s1 with threadJoinable := false }, true)
    else (s1, false)
  let relStep : LifecycleState × Bool × Bool :=
    if joinStep.1.tsfnHandle then
      ({ joinStep.1 with tsfnReleased := true }, true, joinStep.1.tsfnReleased)
    else (joinStep.1, false, false)
  ⟨relStep.1, joinStep.2, relStep.2.1, relStep.2.2⟩

/-- Inbound messages whose dispatch can rebind or clear the cache entry of
`id`: a decodable id+label packet for `id`, a session-start, or an
unregister for `id`. -/
def touches (id : Nat) : Inbound → Bool
  | .copyData dwData data =>
      decide (dwData = 1 ∧ 5 ≤ data.length ∧ decodeUInt32LE data = id)
  | .message code _ lp =>
      decide (code = WM_MAME_START ∨ (code = WM_MAME_UNREG ∧ lp % 4294967296 = id))

theorem cacheGet_cacheErase (id j : Nat) (m : List (Nat × String)) :
    cacheGet id (cacheErase j m) = if id = j then none else cacheGet id m := by
  induction m with
  | nil => simp [cacheErase, cacheGet]
  | cons p rest ih =>
    obtain ⟨k, v⟩ := p
    by_cases hk : k = j
    · subst hk
      have e : cacheErase k ((k, v) :: rest) = cacheErase k rest := by
        simp [cacheErase, List.filter_cons]
      rw [e, ih]
      by_cases hij : id = k
      · simp [hij]
      · have hki : k ≠ id := fun he => hij he.symm
        simp [cacheGet, hij, hki]
    · have e : cacheErase j ((k, v) :: rest) = (k, v) :: cacheErase j rest := by
        simp [cacheErase, List.filter_cons, hk]
      rw [e]
      simp only [cacheGet]
      rw [ih]
      by_cases hij : id = j
      · have hki : k ≠ id := fun he => hk (he.trans hij)
        simp [hij, hki, hk]
      · simp [hij]

theorem cacheGet_cachePut (id j : Nat) (v : String) (m : List (Nat × String)) :
    cacheGet id (cachePut j v m) = if id = j then some v else cacheGet id m := by
  rw [cachePut]
  simp only [cacheGet]
  rw [cacheGet_cacheErase]
  by_cases h : id = j
  · simp [h]
  · have hji : j ≠ id := fun he => h he.symm
    simp [h, hji]

theorem decodeUInt32LE_encode (n : Nat) (rest : List Nat)
    (h : n < 4294967296) :
    decodeUInt32LE (uint32LEBytes n ++ rest) = n := by
  have e : decodeUInt32LE (uint32LEBytes n ++ rest)
      = n % 256 + 256 * (n / 256 % 256) + 65536 * (n / 65536 % 256) +
        16777216 * (n / 16777216 % 256) := rfl
  rw [e]; omega

theorem strnlenList_eq_length (bs : List Nat) (h : ∀ b ∈ bs, b ≠ 0) :
    strnlenList bs = bs.length := by
  induction bs with
  | nil => rfl
  | cons b rest ih =>
    rw [strnlenList, if_neg (h b (List.mem_cons_self b rest))]
    simp [ih (fun x hx => h x (List.mem_cons_of_mem b hx))]

theorem strnlenList_append_nul (bs junk : List Nat) (h : ∀ b ∈ bs, b ≠ 0) :
    strnlenList (bs ++ 0 :: junk) = bs.length := by
  induction bs with
  | nil => simp [strnlenList]
  | cons b rest ih =>
    rw [List.cons_append, strnlenList,
      if_neg (h b (List.mem_cons_self b rest))]
    simp [ih (fun x hx => h x (List.mem_cons_of_mem b hx))]

theorem bytesToString_stringBytes (L : String) :
    bytesToString (stringBytes L) = L := by
  obtain ⟨d⟩ := L
  simp [bytesToString, stringBytes, byteChar, List.map_map, Function.comp_def,
    String.toList]

theorem stringBytes_ne_zero (L : String) (hnul : ∀ c ∈ L.toList, c.toNat ≠ 0) :
    ∀ b ∈ stringBytes L, b ≠ 0 := by
  intro b hb
  simp only [stringBytes, List.mem_map] at hb
  obtain ⟨c, hc, rfl⟩ := hb
  exact hnul c hc

/-- Shape of `WndProc` on a well-formed id+label packet for a non-zero id:
the label is inserted and the label-update plus seeding numeric-update
events are pushed. -/
theorem WndProc_copyData_label (hwnd : Nat) (s : ListenerState) (id : Nat)
    (bs : List Nat) (hlt : id < 4294967296) (hid : id ≠ 0) (hbs : bs ≠ []) :
    WndProc hwnd s (Inbound.copyData 1 (uint32LEBytes id ++ bs))
      = { state := { s with idToName := cachePut id (bytesToString (bs.take (strnlenList bs))) s.idToName },
          events := [Event.labelUpdate ("id_" ++ toString id)
                       (bytesToString (bs.take (strnlenList bs))),
                     Event.numericUpdate ("id_" ++ toString id) 0],
          outbound := [], outcome := Outcome.handled 1 } := by
  have hlen : 5 ≤ (uint32LEBytes id ++ bs).length := by
    have : bs.length ≠ 0 := fun h => hbs (List.eq_nil_of_length_eq_zero h)
    simp [uint32LEBytes]
    omega
  have hdrop : (uint32LEBytes id ++ bs).drop 4 = bs := rfl
  simp only [WndProc, decodeUInt32LE_encode id bs hlt, hdrop, if_neg hid,
    hlen, true_and, if_true, eq_self_iff_true]

/-- On a `WM_COPYDATA` message that does not match the id+label shape, the
state is unchanged (the key=value path never touches the cache). -/
theorem WndProc_copyData_state_of_ne (hwnd : Nat) (s : ListenerState)
    (dwData : Nat) (data : List Nat)
    (h : ¬(dwData = 1 ∧ 5 ≤ data.length)) :
    (WndProc hwnd s (Inbound.copyData dwData data)).state = s := by
  simp only [WndProc, if_neg h]
  split
  · split
    · split <;> rfl
    · rfl
  · rfl

/-- Ordinary messages other than session-start and unregister leave the
state unchanged. -/
theorem WndProc_message_state (hwnd : Nat) (s : ListenerState)
    (code wp lp : Nat) (hstart : code ≠ WM_MAME_START)
    (hunreg : code ≠ WM_MAME_UNREG) :
    (WndProc hwnd s (Inbound.message code wp lp)).state = s := by
  simp only [WndProc, if_neg hstart]
  by_cases h2 : code = WM_MAME_REGISTER
  · rw [if_pos h2]
  · rw [if_neg h2]
    by_cases h3 : code = WM_MAME_UPDATE
    · rw [if_pos h3]
    · rw [if_neg h3, if_neg hunreg]
      by_cases h5 : code = WM_MAME_STOP
      · rw [if_pos h5]
      · rw [if_neg h5]

/-- Dispatching a message that does not touch `id` leaves the cache entry
of `id` unchanged. -/
theorem cacheGet_WndProc_preserved (hwnd : Nat) (s : ListenerState)
    (id : Nat) (i : Inbound) (h : touches id i = false) :
    cacheGet id (WndProc hwnd s i).state.idToName = cacheGet id s.idToName := by
  cases i with
  | copyData dwData data =>
    rw [touches, decide_eq_false_iff_not] at h
    by_cases h1 : dwData = 1 ∧ 5 ≤ data.length
    · have hid2 : decodeUInt32LE data ≠ id := fun he => h ⟨h1.1, h1.2, he⟩
      simp only [WndProc, if_pos h1]
      by_cases h0 : decodeUInt32LE data = 0
      · simp [h0]
      · simp only [if_neg h0]
        simp [cacheGet_cachePut, Ne.symm hid2]
    · rw [WndProc_copyData_state_of_ne hwnd s dwData data h1]
  | message code wp lp =>
    rw [touches, decide_eq_false_iff_not] at h
    push_neg at h
    by_cases h4 : code = WM_MAME_UNREG
    · subst h4
      have hne : lp % 4294967296 ≠ id := h.2 rfl
      have e : (WndProc hwnd s (Inbound.message WM_MAME_UNREG wp lp)).state.idToName
          = cacheErase (lp % 4294967296) s.idToName := rfl
      rw [e, cacheGet_cacheErase, if_neg (fun he => hne he.symm)]
    · rw [WndProc_message_state hwnd s code wp lp h.1 h4]

/-- A trace of messages none of which touches `id` preserves the cache
entry of `id`. -/
theorem cacheGet_runTrace_preserved (hwnd : Nat) (id : Nat)
    (ops : List Inbound) (s : ListenerState)
    (hops : ∀ i ∈ ops, touches id i = false) :
    cacheGet id (runTrace hwnd s ops).idToName = cacheGet id s.idToName := by
  induction ops generalizing s with
  | nil => rfl
  | cons i rest ih =>
    rw [runTrace, ih _ (fun j hj => hops j (List.mem_cons_of_mem i hj))]
    exact cacheGet_WndProc_preserved hwnd s id i
      (hops i (List.mem_cons_self i rest))

/-- One dispatch step never creates a cache entry for the sentinel id 0. -/
theorem cacheGet_zero_WndProc (hwnd : Nat) (s : ListenerState) (i : Inbound)
    (h : cacheGet 0 s.idToName = none) :
    cacheGet 0 (WndProc hwnd s i).state.idToName = none := by
  cases i with
  | copyData dwData data =>
    by_cases h1 : dwData = 1 ∧ 5 ≤ data.length
    · simp only [WndProc, if_pos h1]
      by_cases h0 : decodeUInt32LE data = 0
      · simp [h0, h]
      · simp only [if_neg h0]
        simp [cacheGet_cachePut, Ne.symm h0, h]
    · rw [WndProc_copyData_state_of_ne hwnd s dwData data h1]; exact h
  | message code wp lp =>
    by_cases hstart : code = WM_MAME_START
    · subst hstart
      rfl
    · by_cases hunreg : code = WM_MAME_UNREG
      · subst hunreg
        have e : (WndProc hwnd s (Inbound.message WM_MAME_UNREG wp lp)).state.idToName
            = cacheErase (lp % 4294967296) s.idToName := rfl
        rw [e, cacheGet_cacheErase]
        split <;> simp [h]
      · rw [WndProc_message_state hwnd s code wp lp hstart hunreg]; exact h

/-- No reachable trace ever creates a cache entry for the sentinel id 0. -/
theorem cacheGet_zero_runTrace (hwnd : Nat) (s : ListenerState)
    (ops : List Inbound) (h : cacheGet 0 s.idToName = none) :
    cacheGet 0 (runTrace hwnd s ops).idToName = none := by
  induction ops generalizing s with
  | nil => exact h
  | cons i rest ih => exact ih _ (cacheGet_zero_WndProc hwnd s i h)

/-- C1: On the key/value path (non-id+label discriminant, declared length
over 3, containing an equals separator), a numeric suffix such as
"score=1500" yields exactly one numeric-update event and a normally
handled message; a non-numeric suffix such as "score=abc" yields no event,
but instead of being handled as a skipped decode the unguarded
`std::stoi` call throws and the exception escapes the window procedure
(outcome `thrown`), contradicting the claim that decode failure is never
fatal to the host process. -/
theorem c1_keyValue_decode_eval (hwnd : Nat) (s : ListenerState) :
    (WndProc hwnd s (Inbound.copyData 0 (stringBytes "score=1500"))).events
      = [Event.numericUpdate "score" 1500] ∧
    (WndProc hwnd s (Inbound.copyData 0 (stringBytes "score=1500"))).outcome
      = Outcome.handled 1 ∧
    (WndProc hwnd s (Inbound.copyData 0 (stringBytes "score=abc"))).events
      = [] ∧
    (WndProc hwnd s (Inbound.copyData 0 (stringBytes "score=abc"))).outcome
      = Outcome.thrown := by
  refine ⟨rfl, rfl, rfl, rfl⟩

/-- C2: From any starting state, the sequence session-start, label record
(7, "Lives"), update(7, 3) emits exactly, in order: session-started,
label-update("id_7", "Lives"), numeric-update("id_7", 0),
numeric-update("id_7", 3). -/
theorem c2_scenario_events (hwnd src : Nat) (s : ListenerState) :
    runEvents hwnd s
        [Inbound.message WM_MAME_START src 0,
         labelPacket 7 "Lives",
         Inbound.message WM_MAME_UPDATE 7 3]
      = [sessionStartedEvent,
         Event.labelUpdate "id_7" "Lives",
         Event.numericUpdate "id_7" 0,
         Event.numericUpdate "id_7" 3] := by
  rfl

/-- C3 counterexample: the claim says the binding of id 7 persists under
every subsequent operation other than unregister(7) or session-start, but
a second label record for id 7 rebinds it: after label(7, "A") then
label(7, "B"), `get(7)` returns "B", not "A". -/
theorem c3_counterexample :
    cacheGet 7 ((WndProc 100 (WndProc 100 initialState (labelPacket 7 "A")).state
        (labelPacket 7 "B")).state).idToName = some "B"
      ∧ some "B" ≠ some "A"
      ∧ touches 7 (labelPacket 7 "B") = true
      ∧ (labelPacket 7 "B" ≠ Inbound.message WM_MAME_UNREG 0 7
         ∧ ∀ wp lp, labelPacket 7 "B" ≠ Inbound.message WM_MAME_START wp lp) := by
  refine ⟨rfl, by decide, by decide, by decide, fun wp lp => by simp [labelPacket]⟩

/-- C3 (amended): for a non-zero 32-bit id and a non-empty NUL-free label
L, after the label record (id, L) is processed, `get(id)` returns L under
every subsequent operation that neither rebinds id (another label record
for id), unregisters id, nor is a session-start; immediately after an
unregister(id) or a session-start it returns none. -/
theorem c3_label_binding_lifetime (hwnd : Nat) (s : ListenerState) (id : Nat)
    (L : String) (ops : List Inbound) (wp src lp : Nat)
    (hlt : id < 4294967296) (hid : id ≠ 0)
    (hne : L.toList ≠ []) (hnul : ∀ c ∈ L.toList, c.toNat ≠ 0)
    (hops : ∀ i ∈ ops, touches id i = false) :
    cacheGet id (runTrace hwnd (WndProc hwnd s (labelPacket id L)).state ops).idToName = some L ∧
    cacheGet id (WndProc hwnd (runTrace hwnd (WndProc hwnd s (labelPacket id L)).state ops) (Inbound.message WM_MAME_UNREG wp id)).state.idToName = none ∧
    cacheGet id (WndProc hwnd (runTrace hwnd (WndProc hwnd s (labelPacket id L)).state ops) (Inbound.message WM_MAME_START src lp)).state.idToName = none := by
  have hb : ∀ b ∈ stringBytes L, b ≠ 0 := stringBytes_ne_zero L hnul
  have hbs : stringBytes L ≠ [] := by
    intro hmap
    exact hne (List.map_eq_nil_iff.mp hmap)
  have hstep := WndProc_copyData_label hwnd s id (stringBytes L) hlt hid hbs
  rw [strnlenList_eq_length _ hb, List.take_length, bytesToString_stringBytes] at hstep
  have hpkt : labelPacket id L = Inbound.copyData 1 (uint32LEBytes id ++ stringBytes L) := rfl
  rw [hpkt, hstep]
  have eu : ∀ t : ListenerState,
      (WndProc hwnd t (Inbound.message WM_MAME_UNREG wp id)).state.idToName
        = cacheErase (id % 4294967296) t.idToName := fun t => rfl
  have es : ∀ t : ListenerState,
      (WndProc hwnd t (Inbound.message WM_MAME_START src lp)).state.idToName
        = ([] : List (Nat × String)) := fun t => rfl
  refine ⟨?_, ?_, ?_⟩
  · rw [cacheGet_runTrace_preserved hwnd id ops _ hops]
    show cacheGet id (cachePut id L s.idToName) = some L
    rw [cacheGet_cachePut, if_pos rfl]
  · rw [eu, Nat.mod_eq_of_lt hlt, cacheGet_cacheErase, if_pos rfl]
  · rw [es]
    rfl

/-- C3 witness: instantiates the amended binding-lifetime theorem for the
scenario label(7, "Lives") followed by update(7, 3), then unregister(7) or
session-start. -/
theorem c3_label_binding_lifetime_witness :
    cacheGet 7 (runTrace 100 (WndProc 100 initialState (labelPacket 7 "Lives")).state [Inbound.message WM_MAME_UPDATE 7 3]).idToName = some "Lives" ∧
    cacheGet 7 (WndProc 100 (runTrace 100 (WndProc 100 initialState (labelPacket 7 "Lives")).state [Inbound.message WM_MAME_UPDATE 7 3]) (Inbound.message WM_MAME_UNREG 1 7)).state.idToName = none ∧
    cacheGet 7 (WndProc 100 (runTrace 100 (WndProc 100 initialState (labelPacket 7 "Lives")).state [Inbound.message WM_MAME_UPDATE 7 3]) (Inbound.message WM_MAME_START 555 0)).state.idToName = none :=
  c3_label_binding_lifetime 100 initialState 7 "Lives"
    [Inbound.message WM_MAME_UPDATE 7 3] 1 555 0
    (by decide) (by decide) (by decide) (by decide) (by decide)

/-- C4: from any state, processing session-start leaves the Binding Cache
empty, records the new source handle, emits exactly the session-started
event, and posts the register-for-updates and request-all-id-labels
signals each on both the broadcast path and the direct path to the new
source handle. -/
theorem c4_session_start_clears_and_requests (hwnd src lp : Nat)
    (s : ListenerState) :
    (WndProc hwnd s (Inbound.message WM_MAME_START src lp)).state.idToName = [] ∧
    (WndProc hwnd s (Inbound.message WM_MAME_START src lp)).state.mameHWND = src ∧
    (WndProc hwnd s (Inbound.message WM_MAME_START src lp)).events
      = [sessionStartedEvent] ∧
    (WndProc hwnd s (Inbound.message WM_MAME_START src lp)).outbound
      = [⟨Target.broadcast, WM_MAME_REG, hwnd, 0⟩,
         ⟨Target.window src, WM_MAME_REG, hwnd, 0⟩,
         ⟨Target.broadcast, WM_MAME_GET_ID, hwnd, 0⟩,
         ⟨Target.window src, WM_MAME_GET_ID, hwnd, 0⟩] := by
  refine ⟨rfl, rfl, rfl, rfl⟩

/-- C5: the Binding Cache never holds an entry for the sentinel id 0: in
every state reachable from the initial state `get(0)` is none; moreover a
label record decoding to id 0 leaves the cache untouched and is routed to
the current-run-name channel, emitting the text-update and the seeding
numeric-update on the reserved key. -/
theorem c5_sentinel_never_cached (hwnd : Nat) (ops : List Inbound)
    (s : ListenerState) (data : List Nat)
    (hid : decodeUInt32LE data = 0) (hlen : 5 ≤ data.length) :
    cacheGet 0 (runTrace hwnd initialState ops).idToName = none ∧
    (WndProc hwnd s (Inbound.copyData 1 data)).state.idToName = s.idToName ∧
    (WndProc hwnd s (Inbound.copyData 1 data)).events
      = [Event.textUpdate "__GAME_NAME__"
           (bytesToString ((data.drop 4).take (strnlenList (data.drop 4)))),
         Event.numericUpdate "__GAME_NAME__" 0] := by
  refine ⟨cacheGet_zero_runTrace hwnd initialState ops rfl, ?_, ?_⟩
  · simp only [WndProc, hid, hlen, true_and, if_true, eq_self_iff_true]
  · simp only [WndProc, hid, hlen, true_and, if_true, eq_self_iff_true]

/-- C5 witness: instantiates the sentinel invariant after a trace that
stores id 3 and updates id 0, and the routing of a concrete id-0 label
packet carrying the single byte of "A". -/
theorem c5_sentinel_never_cached_witness :
    cacheGet 0 (runTrace 100 initialState
        [labelPacket 3 "x", Inbound.message WM_MAME_UPDATE 0 5]).idToName = none ∧
    (WndProc 100 initialState (Inbound.copyData 1 [0, 0, 0, 0, 65])).state.idToName
      = initialState.idToName ∧
    (WndProc 100 initialState (Inbound.copyData 1 [0, 0, 0, 0, 65])).events
      = [Event.textUpdate "__GAME_NAME__"
           (bytesToString ((([0, 0, 0, 0, 65] : List Nat).drop 4).take
             (strnlenList (([0, 0, 0, 0, 65] : List Nat).drop 4)))),
         Event.numericUpdate "__GAME_NAME__" 0] :=
  c5_sentinel_never_cached 100 [labelPacket 3 "x", Inbound.message WM_MAME_UPDATE 0 5]
    initialState [0, 0, 0, 0, 65] rfl (by decide)

/-- C6: an update for a non-zero id that is absent from the Binding Cache
while a source handle is known posts exactly two request-label signals
(broadcast and direct) and emits exactly one numeric-update on the derived
"id_" key, all within the processing of that one message; an update for
id 0 posts nothing. -/
theorem c6_unknown_update_requests (hwnd : Nat) (s : ListenerState)
    (wp lp v : Nat) (hlt : wp < 4294967296) (hid : wp ≠ 0)
    (habs : cacheGet wp s.idToName = none) (hsrc : s.mameHWND ≠ 0) :
    (WndProc hwnd s (Inbound.message WM_MAME_UPDATE wp lp)).outbound
      = [⟨Target.broadcast, WM_MAME_GET_ID, hwnd, wp⟩,
         ⟨Target.window s.mameHWND, WM_MAME_GET_ID, hwnd, wp⟩] ∧
    (WndProc hwnd s (Inbound.message WM_MAME_UPDATE wp lp)).events
      = [Event.numericUpdate ("id_" ++ toString wp) (toInt32 lp)] ∧
    (WndProc hwnd s (Inbound.message WM_MAME_UPDATE 0 v)).outbound = [] := by
  have hmod : wp % 4294967296 = wp := Nat.mod_eq_of_lt hlt
  have hcond : wp ≠ 0 ∧ cacheGet wp s.idToName = none ∧ s.mameHWND ≠ 0 :=
    ⟨hid, habs, hsrc⟩
  refine ⟨?_, ?_, rfl⟩
  · simp only [WndProc, if_neg (show ¬WM_MAME_UPDATE = WM_MAME_START by decide),
      if_neg (show ¬WM_MAME_UPDATE = WM_MAME_REGISTER by decide),
      if_pos (show WM_MAME_UPDATE = WM_MAME_UPDATE from rfl),
      hmod, if_pos hcond, if_true]
  · simp only [WndProc, if_neg (show ¬WM_MAME_UPDATE = WM_MAME_START by decide),
      if_neg (show ¬WM_MAME_UPDATE = WM_MAME_REGISTER by decide),
      if_pos (show WM_MAME_UPDATE = WM_MAME_UPDATE from rfl),
      hmod, if_neg hid, if_true]

/-- C6 witness: instantiates the unknown-id update theorem at id 9 with an
empty cache and source handle 555, and the id-0 case at value 2. -/
theorem c6_unknown_update_requests_witness :
    (WndProc 100 ⟨555, [], ""⟩ (Inbound.message WM_MAME_UPDATE 9 4)).outbound
      = [⟨Target.broadcast, WM_MAME_GET_ID, 100, 9⟩,
         ⟨Target.window (⟨555, [], ""⟩ : ListenerState).mameHWND, WM_MAME_GET_ID, 100, 9⟩] ∧
    (WndProc 100 ⟨555, [], ""⟩ (Inbound.message WM_MAME_UPDATE 9 4)).events
      = [Event.numericUpdate ("id_" ++ toString 9) (toInt32 4)] ∧
    (WndProc 100 ⟨555, [], ""⟩ (Inbound.message WM_MAME_UPDATE 0 2)).outbound = [] :=
  c6_unknown_update_requests 100 ⟨555, [], ""⟩ 9 4 2
    (by decide) (by decide) rfl (by decide)

/-- C7: decoding an id+label packet for (42, "Pac-Man") yields exactly
identifier 42 and label "Pac-Man", also when the buffer carries arbitrary
trailing bytes after an embedded NUL terminator (they are excluded); with
no terminator the label is truncated at the declared bound and still
round-trips. -/
theorem c7_label_roundtrip (hwnd : Nat) (s : ListenerState) (junk : List Nat) :
    (WndProc hwnd s (Inbound.copyData 1
        (encodeLabelRecord 42 "Pac-Man" ++ 0 :: junk))).events
      = [Event.labelUpdate "id_42" "Pac-Man",
         Event.numericUpdate "id_42" 0] ∧
    cacheGet 42 (WndProc hwnd s (Inbound.copyData 1
        (encodeLabelRecord 42 "Pac-Man" ++ 0 :: junk))).state.idToName
      = some "Pac-Man" ∧
    (WndProc hwnd s (labelPacket 42 "Pac-Man")).events
      = [Event.labelUpdate "id_42" "Pac-Man",
         Event.numericUpdate "id_42" 0] := by
  have hb : ∀ b ∈ stringBytes "Pac-Man", b ≠ 0 := by decide
  have he : encodeLabelRecord 42 "Pac-Man" ++ 0 :: junk
      = uint32LEBytes 42 ++ (stringBytes "Pac-Man" ++ 0 :: junk) := by
    simp [encodeLabelRecord, List.append_assoc]
  have hstep := WndProc_copyData_label hwnd s 42
    (stringBytes "Pac-Man" ++ 0 :: junk) (by decide) (by decide) (by simp)
  rw [strnlenList_append_nul _ _ hb, List.take_left,
    bytesToString_stringBytes] at hstep
  rw [he, hstep]
  refine ⟨rfl, ?_, rfl⟩
  show cacheGet 42 (cachePut 42 "Pac-Man" s.idToName) = some "Pac-Man"
  rw [cacheGet_cachePut, if_pos rfl]

/-- C8: session-stop emits exactly the session-stopped event and changes
nothing else: state (cache, source handle, run name) is identical and no
outbound signal is posted. -/
theorem c8_session_stop_frame (hwnd wp lp : Nat) (s : ListenerState) :
    WndProc hwnd s (Inbound.message WM_MAME_STOP wp lp)
      = { state := s, events := [sessionStoppedEvent],
          outbound := [], outcome := Outcome.handled 0 } := by
  rfl

/-- C9: evaluation at the redundant-call scenario the claim asserts is
safe.  Starting from the running state after a `StartListener` (thread
joinable, wrapper handle set, nothing released yet), the first
`StopListener` joins and performs the first release; because `Release()`
never nulls the wrapper's pointer, the second `StopListener` still
passes the `if (g_tsfn)` guard and calls `Release()` again on the
already-released threadsafe function (`doubleRelease = true`) — it is
not the claimed error-free no-op.  The join half of the claim does hold
(the second call joins nothing), and a stop with no thread and no
callback binding ever created only clears the run flag. -/
theorem c9_redundant_stop_eval (r : Bool) :
    (StopListener (StopListener ⟨true, true, true, false⟩).state).didJoin
      = false ∧
    (StopListener (StopListener ⟨true, true, true, false⟩).state).didRelease
      = true ∧
    (StopListener (StopListener ⟨true, true, true, false⟩).state).doubleRelease
      = true ∧
    (StopListener ⟨r, false, true, true⟩).doubleRelease = true ∧
    StopListener ⟨r, false, false, false⟩
      = ⟨⟨false, false, false, false⟩, false, false, false⟩ := by
  cases r <;> exact ⟨rfl, rfl, rfl, rfl, rfl⟩

/-- C10: the outbound register-for-updates message and the inbound
per-identifier register control message are registered under the same
name "MAMEOutputRegister", so they share one message code; hence the
broadcast register posted during session-start, when received back by the
listener's own window with lp = 0, is dispatched by the register branch
and triggers the dual-path request-label signals for identifier 0. -/
theorem c10_register_message_collision (hwnd wp : Nat) (s : ListenerState) :
    WM_MAME_REG = WM_MAME_REGISTER ∧
    ⟨Target.broadcast, WM_MAME_REG, hwnd, 0⟩ ∈
      (WndProc hwnd s (Inbound.message WM_MAME_START wp 0)).outbound ∧
    (WndProc hwnd s (Inbound.message WM_MAME_REG hwnd 0)).outbound
      = [⟨Target.broadcast, WM_MAME_GET_ID, hwnd, 0⟩,
         ⟨Target.window s.mameHWND, WM_MAME_GET_ID, hwnd, 0⟩] ∧
    (WndProc hwnd s (Inbound.message WM_MAME_REG hwnd 0)).events = [] ∧
    (WndProc hwnd s (Inbound.message WM_MAME_REG hwnd 0)).state = s := by
  exact ⟨rfl, List.mem_cons_self _ _, rfl, rfl, rfl⟩
